import Mathlib

/-!
Shallow embedding of the environment (endpoint) registration subsystem of
the `endpoints` package: the `endpointCreatePayload.Validate` parser and the
type-dispatched creation flow (`createEndpoint`, `createAzureEndpoint`,
`createEdgeAgentEndpoint`, `createUnsecuredEndpoint`,
`createTLSSecuredEndpoint`, `snapshotAndPersistEndpoint`, `storeTLSFiles`).

External collaborators (persistence, snapshotter, ping client, Azure client,
file service, the process random source and `runtime.GOOS`) are modelled as
oracle fields of the `Handler` structure; each creation function returns the
handler result together with the ordered trace of collaborator calls it made,
so that claims about "no record is created" or "the allocator is not queried"
are statements about the trace.

Go `[]string` slices that distinguish `nil` from empty are modelled as
`Option (List String)`; byte slices as `List Nat`; Go errors as `String`.
-/

deriving instance DecidableEq for Except

namespace Portainer

/-- Endpoint types, with the numeric codes of the source constants
(DockerEnvironment = 1, AgentOnDockerEnvironment = 2, AzureEnvironment = 3,
EdgeAgentEnvironment = 4). -/
inductive EndpointType where
  | dockerEnvironment
  | agentOnDockerEnvironment
  | azureEnvironment
  | edgeAgentEnvironment
deriving DecidableEq, Repr

/-- The numeric wire code of an endpoint type. -/
def EndpointType.code : EndpointType → Int
  | .dockerEnvironment => 1
  | .agentOnDockerEnvironment => 2
  | .azureEnvironment => 3
  | .edgeAgentEnvironment => 4

/-- Endpoint status (EndpointStatusUp = 1, EndpointStatusDown = 2). -/
inductive EndpointStatus where
  | up
  | down
deriving DecidableEq, Repr

/-- A snapshot is opaque to this subsystem; only its identity matters. -/
structure Snapshot where
  raw : Nat
deriving DecidableEq, Repr

/-- portainer.AzureCredentials. -/
structure AzureCredentials where
  ApplicationID : String := ""
  TenantID : String := ""
  AuthenticationKey : String := ""
deriving DecidableEq, Repr

/-- portainer.TLSConfiguration (paths are set by storeTLSFiles). -/
structure TLSConfiguration where
  TLS : Bool := false
  TLSSkipVerify : Bool := false
  TLSCACertPath : String := ""
  TLSCertPath : String := ""
  TLSKeyPath : String := ""
deriving DecidableEq, Repr

/-- portainer.Endpoint, restricted to the fields this flow writes.
Access-policy / extension collections are opaque lists. -/
structure Endpoint where
  ID : Nat
  Name : String := ""
  URL : String := ""
  Type' : EndpointType
  GroupID : Int := 0
  PublicURL : String := ""
  TLSConfig : TLSConfiguration := {}
  AzureCredentials : AzureCredentials := {}
  UserAccessPolicies : List Nat := []
  TeamAccessPolicies : List Nat := []
  AuthorizedUsers : List Nat := []
  AuthorizedTeams : List Nat := []
  Extensions : List Nat := []
  Tags : Option (List String) := none
  Status : EndpointStatus
  Snapshots : List Snapshot := []
  EdgeKey : String := ""
deriving DecidableEq, Repr

/-- portainer.EdgeKey: the tunnel-key record that is serialized and digested. -/
structure EdgeKey where
  TunnelServerAddr : String
  TunnelServerPort : String
  TunnelPort : String
  TunnelServerFingerprint : String
  Credentials : String
deriving DecidableEq, Repr

/-- httperror.HandlerError. -/
structure HandlerError where
  statusCode : Nat
  message : String
  err : String
deriving DecidableEq, Repr

/-- The status code carried by a failed handler result. -/
def resultStatus (r : Except HandlerError Endpoint) : Option Nat :=
  match r with
  | .error e => some e.statusCode
  | .ok _ => none

/-- portainer.TLSFileType (TLSFileCA, TLSFileCert, TLSFileKey). -/
inductive TLSFileType where
  | ca
  | cert
  | key
deriving DecidableEq, Repr

/-! ## Multipart form requests and the libhttp retrieval helpers -/

/-- A multipart form request: simple values and uploaded files, by field name.
Go's FormValue returns the empty string for an absent field, so an empty
value and an absent value are indistinguishable, as in the source. -/
structure FormRequest where
  values : List (String × String)
  files : List (String × List Nat)
deriving DecidableEq, Repr

/-- The raw form value of a field (empty string when absent), as Go FormValue. -/
def FormRequest.value (r : FormRequest) (name : String) : String :=
  (r.values.lookup name).getD ""

/-- request.RetrieveMultiPartFormValue: the field's value, an error when the
value is empty and the field is not optional. -/
def retrieveMultiPartFormValue (r : FormRequest) (name : String)
    (optional : Bool) : Except String String :=
  let value := r.value name
  if value = "" && !optional then .error "missing required form value"
  else .ok value

/-- One decimal digit step of strconv.Atoi. -/
def digitsToNat : List Char → Nat → Option Nat
  | [], acc => some acc
  | c :: cs, acc =>
    if c.isDigit then digitsToNat cs (acc * 10 + (c.toNat - 48)) else none

/-- strconv.Atoi: optional sign followed by at least one decimal digit. -/
def atoi (s : String) : Except String Int :=
  match s.toList with
  | [] => .error "invalid syntax"
  | '+' :: rest =>
    if rest = [] then .error "invalid syntax"
    else match digitsToNat rest 0 with
      | some n => .ok (n : Int)
      | none => .error "invalid syntax"
  | '-' :: rest =>
    if rest = [] then .error "invalid syntax"
    else match digitsToNat rest 0 with
      | some n => .ok (-(n : Int))
      | none => .error "invalid syntax"
  | chars =>
    match digitsToNat chars 0 with
    | some n => .ok (n : Int)
    | none => .error "invalid syntax"

/-- request.RetrieveNumericMultiPartFormValue: retrieve then strconv.Atoi. -/
def retrieveNumericMultiPartFormValue (r : FormRequest) (name : String)
    (optional : Bool) : Except String Int :=
  match retrieveMultiPartFormValue r name optional with
  | .error e => .error e
  | .ok value => atoi value

/-- request.RetrieveBooleanMultiPartFormValue; every caller in the source
discards its error, so it is modelled as the boolean directly. -/
def retrieveBooleanMultiPartFormValue (r : FormRequest) (name : String) : Bool :=
  r.value name = "true"

/-- request.RetrieveMultiPartFormFile: the uploaded file's bytes, an error
when the file is absent. -/
def retrieveMultiPartFormFile (r : FormRequest) (name : String) :
    Except String (List Nat) :=
  match r.files.lookup name with
  | some bytes => .ok bytes
  | none => .error "missing form file"

/-- A decoder for the JSON `Tags` value, standing for json.Unmarshal into a
`[]string`: `.error` when the text is malformed, `.ok none` when it decodes
to a nil slice (JSON null), `.ok (some l)` when it decodes to an array. -/
def TagsDecoder : Type := String → Except String (Option (List String))

/-- request.RetrieveMultiPartFormJSONValue for the `Tags` field: retrieve the
raw value, leave the target nil when the optional value is empty, otherwise
json.Unmarshal it. -/
def retrieveMultiPartFormJSONValue (decode : TagsDecoder) (r : FormRequest)
    (name : String) (optional : Bool) : Except String (Option (List String)) :=
  match retrieveMultiPartFormValue r name optional with
  | .error e => .error e
  | .ok "" => .ok none
  | .ok value => decode value

/-! ## The registration request payload and its parser -/

/-- endpointCreatePayload. `Tags = none` models a Go nil slice. -/
structure EndpointCreatePayload where
  Name : String := ""
  URL : String := ""
  EndpointType : Int := 0
  PublicURL : String := ""
  GroupID : Int := 0
  TLS : Bool := false
  TLSSkipVerify : Bool := false
  TLSSkipClientVerify : Bool := false
  TLSCACertFile : List Nat := []
  TLSCertFile : List Nat := []
  TLSKeyFile : List Nat := []
  AzureApplicationID : String := ""
  AzureTenantID : String := ""
  AzureAuthenticationKey : String := ""
  Tags : Option (List String) := none
deriving DecidableEq, Repr

/-- The error text of the endpoint-type validation failure. -/
def invalidTypeMsg : String :=
  "Invalid endpoint type value. Value must be one of: 1 (Docker environment), 2 (Agent environment), 3 (Azure environment) or 4 (Edge Agent environment)"

/-- endpointCreatePayload.Validate, field for field in source order; the
match nesting mirrors the early returns of the Go method. -/
def EndpointCreatePayload.Validate (decode : TagsDecoder) (r : FormRequest) :
    Except String EndpointCreatePayload :=
  match retrieveMultiPartFormValue r "Name" false with
  | .error _ => .error "Invalid endpoint name"
  | .ok name =>
  match retrieveNumericMultiPartFormValue r "EndpointType" false with
  | .error _ => .error invalidTypeMsg
  | .ok endpointType =>
  if endpointType = 0 then .error invalidTypeMsg
  else
  let groupIDRaw : Int :=
    match retrieveNumericMultiPartFormValue r "GroupID" true with
    | .ok v => v
    | .error _ => 0
  let groupID : Int := if groupIDRaw = 0 then 1 else groupIDRaw
  match retrieveMultiPartFormJSONValue decode r "Tags" true with
  | .error _ => .error "Invalid Tags parameter"
  | .ok tagsRaw =>
  let tags : Option (List String) :=
    match tagsRaw with
    | none => some []
    | some l => some l
  let useTLS := retrieveBooleanMultiPartFormValue r "TLS"
  let tlsStep : Except String (Bool × Bool × List Nat × List Nat × List Nat) :=
    if useTLS then
      let skipVerify := retrieveBooleanMultiPartFormValue r "TLSSkipVerify"
      let skipClientVerify := retrieveBooleanMultiPartFormValue r "TLSSkipClientVerify"
      let caStep : Except String (List Nat) :=
        if !skipVerify then
          match retrieveMultiPartFormFile r "TLSCACertFile" with
          | .error _ => .error "Invalid CA certificate file. Ensure that the file is uploaded correctly"
          | .ok caCert => .ok caCert
        else .ok []
      match caStep with
      | .error e => .error e
      | .ok caCert =>
        if !skipClientVerify then
          match retrieveMultiPartFormFile r "TLSCertFile" with
          | .error _ => .error "Invalid certificate file. Ensure that the file is uploaded correctly"
          | .ok cert =>
            match retrieveMultiPartFormFile r "TLSKeyFile" with
            | .error _ => .error "Invalid key file. Ensure that the file is uploaded correctly"
            | .ok keyBytes => .ok (skipVerify, skipClientVerify, caCert, cert, keyBytes)
        else .ok (skipVerify, skipClientVerify, caCert, [], [])
    else .ok (false, false, [], [], [])
  match tlsStep with
  | .error e => .error e
  | .ok (skipVerify, skipClientVerify, caCert, cert, keyBytes) =>
  if endpointType = EndpointType.azureEnvironment.code then
    match retrieveMultiPartFormValue r "AzureApplicationID" false with
    | .error _ => .error "Invalid Azure application ID"
    | .ok azureApplicationID =>
    match retrieveMultiPartFormValue r "AzureTenantID" false with
    | .error _ => .error "Invalid Azure tenant ID"
    | .ok azureTenantID =>
    match retrieveMultiPartFormValue r "AzureAuthenticationKey" false with
    | .error _ => .error "Invalid Azure authentication key"
    | .ok azureAuthenticationKey =>
    .ok { Name := name, EndpointType := endpointType, GroupID := groupID,
          Tags := tags, TLS := useTLS, TLSSkipVerify := skipVerify,
          TLSSkipClientVerify := skipClientVerify, TLSCACertFile := caCert,
          TLSCertFile := cert, TLSKeyFile := keyBytes,
          AzureApplicationID := azureApplicationID,
          AzureTenantID := azureTenantID,
          AzureAuthenticationKey := azureAuthenticationKey }
  else
    match retrieveMultiPartFormValue r "URL" true with
    | .error _ => .error "Invalid endpoint URL"
    | .ok url =>
    let publicURL : String :=
      match retrieveMultiPartFormValue r "PublicURL" true with
      | .ok v => v
      | .error _ => ""
    .ok { Name := name, EndpointType := endpointType, GroupID := groupID,
          Tags := tags, TLS := useTLS, TLSSkipVerify := skipVerify,
          TLSSkipClientVerify := skipClientVerify, TLSCACertFile := caCert,
          TLSCertFile := cert, TLSKeyFile := keyBytes,
          URL := url, PublicURL := publicURL }

/-! ## Byte-level helpers: strings, JSON serialization, base64 -/

/-- The bytes of an ASCII string (Char code points; UTF-8 agrees on ASCII). -/
def strBytes (s : String) : List Nat :=
  s.toList.map Char.toNat

/-- strings.TrimPrefix. -/
def trimPfx (s pre : String) : String :=
  if s.startsWith pre then s.drop pre.length else s

/-- json.Marshal of an EdgeKey value: the Go struct marshals to an object
whose members appear in field declaration order (string escaping is not
modelled; the claims treat the serialized form only as input to a digest). -/
def marshalEdgeKey (k : EdgeKey) : List Nat :=
  strBytes ("\x7b\"TunnelServerAddr\":\"" ++ k.TunnelServerAddr ++
    "\",\"TunnelServerPort\":\"" ++ k.TunnelServerPort ++
    "\",\"TunnelPort\":\"" ++ k.TunnelPort ++
    "\",\"TunnelServerFingerprint\":\"" ++ k.TunnelServerFingerprint ++
    "\",\"Credentials\":\"" ++ k.Credentials ++ "\"\x7d")

/-- The standard base64 alphabet (encoding/base64 StdEncoding). -/
def stdAlphabet : List Char :=
  "ABCDEFGHIJKLMNOPQRSTUVWXYZabcdefghijklmnopqrstuvwxyz0123456789+/".toList

/-- The URL-safe base64 alphabet (encoding/base64 URLEncoding). -/
def urlAlphabet : List Char :=
  "ABCDEFGHIJKLMNOPQRSTUVWXYZabcdefghijklmnopqrstuvwxyz0123456789-_".toList

/-- The character an alphabet assigns to a six-bit value. -/
def b64Char (alpha : List Char) (i : Nat) : Char :=
  alpha.getD i 'A'

/-- Unpadded base64 of a byte list over a given alphabet: three-byte groups
become four characters; a final one- or two-byte group becomes two or three
characters with no padding, as the Raw encodings of encoding/base64. -/
def encodeGroups (alpha : List Char) : List Nat → List Char
  | [] => []
  | [b0] =>
    [b64Char alpha (b0 / 4 % 64), b64Char alpha (b0 % 4 * 16)]
  | [b0, b1] =>
    [b64Char alpha (b0 / 4 % 64), b64Char alpha (b0 % 4 * 16 + b1 / 16),
     b64Char alpha (b1 % 16 * 4)]
  | b0 :: b1 :: b2 :: rest =>
    b64Char alpha (b0 / 4 % 64) :: b64Char alpha (b0 % 4 * 16 + b1 / 16) ::
    b64Char alpha (b1 % 16 * 4 + b2 / 64) :: b64Char alpha (b2 % 64) ::
    encodeGroups alpha rest

/-- base64.RawStdEncoding.EncodeToString. -/
def rawStdEncode (bs : List Nat) : String :=
  String.mk (encodeGroups stdAlphabet bs)

/-- base64.RawURLEncoding.EncodeToString (what a URL-safe unpadded encoding
of the digest would be). -/
def rawURLEncode (bs : List Nat) : String :=
  String.mk (encodeGroups urlAlphabet bs)

/-! ## The handler, its collaborators and call traces -/

/-- A collaborator call made during a registration. -/
inductive Event where
  | getNextIdentifier
  | ping (url : String)
  | azureAuth
  | createSnapshot
  | storeTLSFile (folder : String) (kind : TLSFileType)
  | createEndpoint (e : Endpoint)
deriving DecidableEq, Repr

/-- The persisted records among a trace's events. -/
def persistedRecords (tr : List Event) : List Endpoint :=
  tr.filterMap fun e =>
    match e with
    | .createEndpoint ep => some ep
    | _ => none

/-- How many times a trace queried the identifier allocator. -/
def idQueryCount (tr : List Event) : Nat :=
  (tr.filter fun e => e = Event.getNextIdentifier).length

/-- How many connectivity probes (Docker pings) a trace contains. -/
def pingCount (tr : List Event) : Nat :=
  (tr.filter fun e =>
    match e with
    | .ping _ => true
    | _ => false).length

/-- The Handler with its collaborators modelled as response oracles:
each field fixes the outcome of the corresponding external call.
`createTLSConfigResult` stands for crypto.CreateTLSConfigurationFromBytes and
`hashFromBytes` for crypto.HashFromBytes; both live in this repository but
outside the sampled source. Modelled from the spec: the former builds a TLS
configuration from the supplied bytes or fails on malformed material, the
latter computes a fixed-length cryptographic digest of its input; they are
kept abstract as oracle fields. `randSource` models the process-wide
rand.Intn source (rand.Intn n is randSource % n, always within [0, n)),
`goos` models runtime.GOOS. -/
structure Handler where
  authorizeEndpointManagement : Bool := true
  nextIdentifier : Nat
  createEndpointErr : Option String := none
  pingResult : Except String Bool := .ok false
  azureAuthErr : Option String := none
  createTLSConfigResult : Except String Unit := .ok ()
  snapshotValue : Option Snapshot := none
  snapshotErr : Option String := none
  storeTLSFileFromBytes : String → TLSFileType → List Nat → Except String String :=
    fun _ _ _ => .ok ""
  tunnelServerFingerprint : String := ""
  randSource : Nat := 0
  goos : String := "linux"
  hashFromBytes : List Nat → List Nat := fun _ => []

/-- rand.Intn drawn from the handler's source: a value in [0, n). -/
def randIntn (src n : Nat) : Nat :=
  src % n

/-- randomInt: min + rand.Intn(max-min). -/
def randomInt (min max src : Nat) : Nat :=
  min + randIntn src (max - min)

/-- createAzureEndpoint: authenticate against Azure, then allocate an
identifier, build the record with the fixed management URL and persist it. -/
def Handler.createAzureEndpoint (h : Handler) (payload : EndpointCreatePayload) :
    Except HandlerError Endpoint × List Event :=
  let credentials : AzureCredentials :=
    { ApplicationID := payload.AzureApplicationID,
      TenantID := payload.AzureTenantID,
      AuthenticationKey := payload.AzureAuthenticationKey }
  match h.azureAuthErr with
  | some e =>
    (.error { statusCode := 500, message := "Unable to authenticate against Azure", err := e },
     [Event.azureAuth])
  | none =>
    let endpointID := h.nextIdentifier
    let endpoint : Endpoint :=
      { ID := endpointID, Name := payload.Name,
        URL := "https://management.azure.com",
        Type' := EndpointType.azureEnvironment,
        GroupID := payload.GroupID, PublicURL := payload.PublicURL,
        AzureCredentials := credentials, Tags := payload.Tags,
        Status := EndpointStatus.up, Snapshots := [] }
    let result : Except HandlerError Endpoint :=
      match h.createEndpointErr with
      | some e =>
        .error { statusCode := 500, message := "Unable to persist endpoint inside the database", err := e }
      | none => .ok endpoint
    (result, [Event.azureAuth, Event.getNextIdentifier, Event.createEndpoint endpoint])

/-- createEdgeAgentEndpoint: allocate an identifier, pick a dynamic-range
port, derive the edge key as the RawStd base64 of the digest of the
JSON-marshalled key record, and persist the record (json.Marshal of a plain
string struct cannot fail, so its error branch is vacuous here). -/
def Handler.createEdgeAgentEndpoint (h : Handler) (payload : EndpointCreatePayload) :
    Except HandlerError Endpoint × List Event :=
  let endpointType := EndpointType.edgeAgentEnvironment
  let endpointID := h.nextIdentifier
  let portnumber := randomInt 49152 65535 h.randSource
  let key : EdgeKey :=
    { TunnelServerAddr := trimPfx payload.URL "tcp://",
      TunnelServerPort := "8000",
      TunnelPort := Nat.repr portnumber,
      TunnelServerFingerprint := h.tunnelServerFingerprint,
      Credentials := "agent@randomstring" }
  let marshaledKey := marshalEdgeKey key
  let keyHash := h.hashFromBytes marshaledKey
  let encodedKey := rawStdEncode keyHash
  let endpoint : Endpoint :=
    { ID := endpointID, Name := payload.Name,
      URL := "tcp://localhost:" ++ Nat.repr portnumber,
      Type' := endpointType, GroupID := payload.GroupID,
      TLSConfig := { TLS := false },
      AuthorizedUsers := [], AuthorizedTeams := [], Extensions := [],
      Tags := payload.Tags, Status := EndpointStatus.up, Snapshots := [],
      EdgeKey := encodedKey }
  let result : Except HandlerError Endpoint :=
    match h.createEndpointErr with
    | some e =>
      .error { statusCode := 500, message := "Unable to persist endpoint inside the database", err := e }
    | none => .ok endpoint
  (result, [Event.getNextIdentifier, Event.createEndpoint endpoint])

/-- snapshotAndPersistEndpoint: attempt a snapshot, set Status Up, downgrade
to Down on snapshot error, attach the snapshot when one was produced, then
persist. Returns the possible handler error, the updated record and the
calls made. -/
def Handler.snapshotAndPersistEndpoint (h : Handler) (endpoint : Endpoint) :
    Option HandlerError × Endpoint × List Event :=
  let ep1 := { endpoint with Status := EndpointStatus.up }
  let ep2 :=
    match h.snapshotErr with
    | some _ => { ep1 with Status := EndpointStatus.down }
    | none => ep1
  let ep3 :=
    match h.snapshotValue with
    | some s => { ep2 with Snapshots := [s] }
    | none => ep2
  let persistErr : Option HandlerError :=
    match h.createEndpointErr with
    | some e =>
      some { statusCode := 500, message := "Unable to persist endpoint inside the database", err := e }
    | none => none
  (persistErr, ep3, [Event.createSnapshot, Event.createEndpoint ep3])

/-- createUnsecuredEndpoint: an empty URL is defaulted to the local engine
socket without probing; a non-empty URL is pinged, a ping failure is a hard
failure, and a detected agent refines the type; then snapshot and persist. -/
def Handler.createUnsecuredEndpoint (h : Handler) (payload : EndpointCreatePayload) :
    Except HandlerError Endpoint × List Event :=
  let probe : Except HandlerError (EndpointCreatePayload × EndpointType) × List Event :=
    if payload.URL = "" then
      let url :=
        if h.goos = "windows" then "npipe:////./pipe/docker_engine"
        else "unix:///var/run/docker.sock"
      (.ok ({ payload with URL := url }, EndpointType.dockerEnvironment), [])
    else
      match h.pingResult with
      | .error e =>
        (.error { statusCode := 500, message := "Unable to ping Docker environment", err := e },
         [Event.ping payload.URL])
      | .ok agentOnDockerEnvironment =>
        (.ok (payload,
          if agentOnDockerEnvironment then EndpointType.agentOnDockerEnvironment
          else EndpointType.dockerEnvironment),
         [Event.ping payload.URL])
  match probe with
  | (.error e, evs) => (.error e, evs)
  | (.ok (payload, endpointType), evs) =>
    let endpointID := h.nextIdentifier
    let endpoint : Endpoint :=
      { ID := endpointID, Name := payload.Name, URL := payload.URL,
        Type' := endpointType, GroupID := payload.GroupID,
        PublicURL := payload.PublicURL, TLSConfig := { TLS := false },
        Tags := payload.Tags, Status := EndpointStatus.up, Snapshots := [] }
    let persisted := h.snapshotAndPersistEndpoint endpoint
    let result : Except HandlerError Endpoint :=
      match persisted.1 with
      | some e => .error e
      | none => .ok persisted.2.1
    (result, evs ++ [Event.getNextIdentifier] ++ persisted.2.2)

/-- storeTLSFiles: store the CA certificate unless server verification is
skipped, then the client certificate and key unless client verification is
skipped, recording each stored path on the endpoint and stopping at the
first failure. -/
def Handler.storeTLSFiles (h : Handler) (endpoint : Endpoint)
    (payload : EndpointCreatePayload) :
    Option HandlerError × Endpoint × List Event :=
  let folder := Nat.repr endpoint.ID
  let caStep : Except (HandlerError × List Event) (Endpoint × List Event) :=
    if !payload.TLSSkipVerify then
      match h.storeTLSFileFromBytes folder TLSFileType.ca payload.TLSCACertFile with
      | .error e =>
        .error ({ statusCode := 500, message := "Unable to persist TLS CA certificate file on disk", err := e },
          [Event.storeTLSFile folder TLSFileType.ca])
      | .ok caCertPath =>
        .ok ({ endpoint with
               TLSConfig := { endpoint.TLSConfig with TLSCACertPath := caCertPath } },
          [Event.storeTLSFile folder TLSFileType.ca])
    else .ok (endpoint, [])
  match caStep with
  | .error (e, evs) => (some e, endpoint, evs)
  | .ok (endpoint, evs) =>
    if !payload.TLSSkipClientVerify then
      match h.storeTLSFileFromBytes folder TLSFileType.cert payload.TLSCertFile with
      | .error e =>
        (some { statusCode := 500, message := "Unable to persist TLS certificate file on disk", err := e },
         endpoint, evs ++ [Event.storeTLSFile folder TLSFileType.cert])
      | .ok certPath =>
        let endpoint :=
          { endpoint with
            TLSConfig := { endpoint.TLSConfig with TLSCertPath := certPath } }
        match h.storeTLSFileFromBytes folder TLSFileType.key payload.TLSKeyFile with
        | .error e =>
          (some { statusCode := 500, message := "Unable to persist TLS key file on disk", err := e },
           endpoint,
           evs ++ [Event.storeTLSFile folder TLSFileType.cert, Event.storeTLSFile folder TLSFileType.key])
        | .ok keyPath =>
          (none,
           { endpoint with
             TLSConfig := { endpoint.TLSConfig with TLSKeyPath := keyPath } },
           evs ++ [Event.storeTLSFile folder TLSFileType.cert, Event.storeTLSFile folder TLSFileType.key])
    else (none, endpoint, evs)

/-- createTLSSecuredEndpoint: build the TLS configuration, ping with it,
allocate an identifier, build the record, store the TLS files, then snapshot
and persist. The source computes `filesystemError` from storeTLSFiles but
guards the return with the stale `err` of the already-checked ping (line
355), which is nil at that point, so a storeTLSFiles failure never aborts
the flow; the embedding reproduces that by discarding `filesystemError`. -/
def Handler.createTLSSecuredEndpoint (h : Handler) (payload : EndpointCreatePayload) :
    Except HandlerError Endpoint × List Event :=
  match h.createTLSConfigResult with
  | .error e =>
    (.error { statusCode := 500, message := "Unable to create TLS configuration", err := e }, [])
  | .ok _ =>
    match h.pingResult with
    | .error e =>
      (.error { statusCode := 500, message := "Unable to ping Docker environment", err := e },
       [Event.ping payload.URL])
    | .ok agentOnDockerEnvironment =>
      let endpointType :=
        if agentOnDockerEnvironment then EndpointType.agentOnDockerEnvironment
        else EndpointType.dockerEnvironment
      let endpointID := h.nextIdentifier
      let endpoint : Endpoint :=
        { ID := endpointID, Name := payload.Name, URL := payload.URL,
          Type' := endpointType, GroupID := payload.GroupID,
          PublicURL := payload.PublicURL,
          TLSConfig := { TLS := payload.TLS, TLSSkipVerify := payload.TLSSkipVerify },
          Tags := payload.Tags, Status := EndpointStatus.up, Snapshots := [] }
      let stored := h.storeTLSFiles endpoint payload
      let filesystemError := stored.1
      let _ := filesystemError
      let persisted := h.snapshotAndPersistEndpoint stored.2.1
      let result : Except HandlerError Endpoint :=
        match persisted.1 with
        | some e => .error e
        | none => .ok persisted.2.1
      (result,
       Event.ping payload.URL :: Event.getNextIdentifier :: (stored.2.2 ++ persisted.2.2))

/-- createEndpoint: dispatch on the payload's numeric type code. -/
def Handler.createEndpoint (h : Handler) (payload : EndpointCreatePayload) :
    Except HandlerError Endpoint × List Event :=
  if payload.EndpointType = EndpointType.azureEnvironment.code then
    h.createAzureEndpoint payload
  else if payload.EndpointType = EndpointType.edgeAgentEnvironment.code then
    h.createEdgeAgentEndpoint payload
  else if payload.TLS then
    h.createTLSSecuredEndpoint payload
  else
    h.createUnsecuredEndpoint payload

/-- endpointCreate: the POST /api/endpoints handler — authorization gate,
payload validation, then creation. -/
def Handler.endpointCreate (h : Handler) (decode : TagsDecoder) (r : FormRequest) :
    Except HandlerError Endpoint × List Event :=
  if !h.authorizeEndpointManagement then
    (.error { statusCode := 503, message := "Endpoint management is disabled", err := "ErrEndpointManagementDisabled" }, [])
  else
    match EndpointCreatePayload.Validate decode r with
    | .error e => (.error { statusCode := 400, message := "Invalid request payload", err := e }, [])
    | .ok payload => h.createEndpoint payload

/-! ## Sample collaborators and requests used by concrete instances -/

/-- Whether a handler result succeeded. -/
def isOkE (r : Except α β) : Bool :=
  match r with
  | .ok _ => true
  | .error _ => false

/-- The edge key of a successful result. -/
def edgeKeyOf (r : Except HandlerError Endpoint) : Option String :=
  match r with
  | .ok ep => some ep.EdgeKey
  | .error _ => none

/-- Whether a failed result carries a client (4xx) status code. -/
def isClientError (r : Except HandlerError Endpoint) : Bool :=
  match r with
  | .error e => 400 ≤ e.statusCode && e.statusCode < 500
  | .ok _ => false

/-- A handler whose collaborators all succeed: the ping sees a bare engine,
the snapshotter returns a snapshot, persistence succeeds, and the digest
oracle returns thirty-two bytes of 255. -/
def sampleHandler : Handler :=
  { nextIdentifier := 7, snapshotValue := some { raw := 1 },
    tunnelServerFingerprint := "fp", randSource := 5,
    storeTLSFileFromBytes := fun folder _ _ => .ok folder,
    hashFromBytes := fun _ => List.replicate 32 255 }

/-- A Tags decoder that rejects every present value. -/
def failDecoder : TagsDecoder := fun _ => .error "bad json"

/-- A plain remote Docker registration payload. -/
def dockerPayload : EndpointCreatePayload :=
  { Name := "prod1", URL := "tcp://10.0.0.5:2375", EndpointType := 1,
    GroupID := 1, Tags := some [] }

/-- The same registration with TLS requested. -/
def tlsPayload : EndpointCreatePayload :=
  { dockerPayload with TLS := true }

/-- An Azure registration payload. -/
def azurePayload : EndpointCreatePayload :=
  { Name := "cloud1", EndpointType := 3, GroupID := 1, Tags := some [],
    AzureApplicationID := "x", AzureTenantID := "y",
    AzureAuthenticationKey := "z" }

/-- An Edge agent registration payload. -/
def edgePayload : EndpointCreatePayload :=
  { Name := "edge1", URL := "tcp://1.2.3.4:9443", EndpointType := 4,
    GroupID := 1, Tags := some [] }

/-! ## Claim theorems -/

/-- C9: every successful Azure registration persists the fixed management
URL "https://management.azure.com" regardless of the request's URL, with
status Up and an empty snapshot list. -/
theorem createAzureEndpoint_url_constant (h : Handler)
    (p : EndpointCreatePayload) (ep : Endpoint)
    (hok : (h.createAzureEndpoint p).fst = .ok ep) :
    ep.URL = "https://management.azure.com" ∧
      ep.Status = EndpointStatus.up ∧ ep.Snapshots = [] ∧
      Event.createEndpoint ep ∈ (h.createAzureEndpoint p).snd := by
  unfold Handler.createAzureEndpoint at hok ⊢
  cases hA : h.azureAuthErr with
  | some e => simp [hA] at hok
  | none =>
    cases hC : h.createEndpointErr with
    | some e => simp [hA, hC] at hok
    | none =>
      simp [hA, hC] at hok ⊢
      obtain rfl := hok.symm
      simp

/-- Witness for C9 at a concrete Azure request. -/
theorem createAzureEndpoint_url_constant_witness :
    (sampleHandler.createAzureEndpoint azurePayload).fst =
      .ok { ID := 7, Name := "cloud1",
            URL := "https://management.azure.com",
            Type' := EndpointType.azureEnvironment, GroupID := 1,
            AzureCredentials := { ApplicationID := "x", TenantID := "y",
                                  AuthenticationKey := "z" },
            Tags := some [], Status := EndpointStatus.up } ∧
    ({ ID := 7, Name := "cloud1", URL := "https://management.azure.com",
       Type' := EndpointType.azureEnvironment, GroupID := 1,
       AzureCredentials := { ApplicationID := "x", TenantID := "y",
                             AuthenticationKey := "z" },
       Tags := some [], Status := EndpointStatus.up } : Endpoint).URL =
        "https://management.azure.com" ∧
    EndpointStatus.up = EndpointStatus.up := by
  refine ⟨by decide, ?_, rfl⟩
  exact (createAzureEndpoint_url_constant sampleHandler azurePayload _
    (by decide)).1

/-- C7: for every Edge agent registration, the selected tunnel port lies in
[49152, 65535) and the persisted record's URL is exactly
"tcp://localhost:" followed by that port's decimal representation. -/
theorem createEdgeAgentEndpoint_port_range (h : Handler)
    (p : EndpointCreatePayload) (ep : Endpoint)
    (hok : (h.createEdgeAgentEndpoint p).fst = .ok ep) :
    49152 ≤ randomInt 49152 65535 h.randSource ∧
      randomInt 49152 65535 h.randSource < 65535 ∧
      ep.URL = "tcp://localhost:" ++ Nat.repr (randomInt 49152 65535 h.randSource) ∧
      Event.createEndpoint ep ∈ (h.createEdgeAgentEndpoint p).snd := by
  have hmod : h.randSource % (65535 - 49152) < 65535 - 49152 :=
    Nat.mod_lt _ (by norm_num)
  refine ⟨by simp [randomInt, randIntn], by simp [randomInt, randIntn]; omega, ?_⟩
  unfold Handler.createEdgeAgentEndpoint at hok ⊢
  cases hC : h.createEndpointErr with
  | some e => simp [hC] at hok
  | none =>
    simp [hC] at hok ⊢
    obtain rfl := hok.symm
    simp

/-- Witness for C7 at a concrete Edge request. -/
theorem createEdgeAgentEndpoint_port_range_witness :
    49152 ≤ randomInt 49152 65535 sampleHandler.randSource ∧
      randomInt 49152 65535 sampleHandler.randSource < 65535 ∧
      (match (sampleHandler.createEdgeAgentEndpoint edgePayload).fst with
        | .ok ep => ep
        | .error _ => { ID := 0, Type' := EndpointType.dockerEnvironment,
                        Status := EndpointStatus.down }).URL =
        "tcp://localhost:" ++ Nat.repr (randomInt 49152 65535 sampleHandler.randSource) := by
  have h := createEdgeAgentEndpoint_port_range sampleHandler edgePayload
    (match (sampleHandler.createEdgeAgentEndpoint edgePayload).fst with
      | .ok ep => ep
      | .error _ => { ID := 0, Type' := EndpointType.dockerEnvironment,
                      Status := EndpointStatus.down })
    (by decide)
  exact ⟨h.1, h.2.1, h.2.2.1⟩

/-- C5: when the connectivity probe (TLS ping) or the Azure authentication
fails, the request fails, no record is passed to persistence, and the
identifier allocator is never queried. -/
theorem probe_failure_no_record_no_id (h : Handler)
    (p : EndpointCreatePayload) (e : String) :
    (h.pingResult = .error e →
      isOkE (h.createTLSSecuredEndpoint p).fst = false ∧
      persistedRecords (h.createTLSSecuredEndpoint p).snd = [] ∧
      idQueryCount (h.createTLSSecuredEndpoint p).snd = 0) ∧
    (h.azureAuthErr = some e →
      isOkE (h.createAzureEndpoint p).fst = false ∧
      persistedRecords (h.createAzureEndpoint p).snd = [] ∧
      idQueryCount (h.createAzureEndpoint p).snd = 0) := by
  constructor
  · intro hping
    unfold Handler.createTLSSecuredEndpoint
    cases hcfg : h.createTLSConfigResult with
    | error ec => simp [hcfg, isOkE, persistedRecords, idQueryCount]
    | ok u => simp [hcfg, hping, isOkE, persistedRecords, idQueryCount]
  · intro hauth
    unfold Handler.createAzureEndpoint
    simp [hauth, isOkE, persistedRecords, idQueryCount]

/-- A handler whose probe and Azure authentication both fail. -/
def probeFailHandler : Handler :=
  { sampleHandler with
      pingResult := .error "unreachable"
      azureAuthErr := some "unreachable" }

/-- A handler whose TLS-configuration construction fails. -/
def tlsConfigFailHandler : Handler :=
  { sampleHandler with
      createTLSConfigResult := .error "malformed TLS material" }

/-- Witness for C5: a handler whose ping and Azure authentication both
fail creates nothing and consumes no identifier. -/
theorem probe_failure_no_record_no_id_witness :
    (isOkE (probeFailHandler.createTLSSecuredEndpoint tlsPayload).fst = false ∧
      persistedRecords (probeFailHandler.createTLSSecuredEndpoint tlsPayload).snd = [] ∧
      idQueryCount (probeFailHandler.createTLSSecuredEndpoint tlsPayload).snd = 0) ∧
    (isOkE (probeFailHandler.createAzureEndpoint azurePayload).fst = false ∧
      persistedRecords (probeFailHandler.createAzureEndpoint azurePayload).snd = [] ∧
      idQueryCount (probeFailHandler.createAzureEndpoint azurePayload).snd = 0) :=
  ⟨(probe_failure_no_record_no_id probeFailHandler tlsPayload "unreachable").1 (by decide),
   (probe_failure_no_record_no_id probeFailHandler azurePayload "unreachable").2 (by decide)⟩

/-- C6 counterexample: a malformed-TLS-material failure is reported with
status 500, which is a server error, not a client error as claimed. -/
theorem tls_config_error_is_server_error :
    resultStatus (tlsConfigFailHandler.createTLSSecuredEndpoint tlsPayload).fst = some 500 ∧
    isClientError (tlsConfigFailHandler.createTLSSecuredEndpoint tlsPayload).fst = false := by
  decide

/-- C6 amended: a TLS-configuration (credential) failure aborts the request
with the server-error status 500 and the message naming the TLS stage, and
it is detected before any external call: the trace is empty. -/
theorem tls_config_error_before_external_calls (h : Handler)
    (p : EndpointCreatePayload) (e : String)
    (hcfg : h.createTLSConfigResult = .error e) :
    (h.createTLSSecuredEndpoint p).fst =
      .error { statusCode := 500, message := "Unable to create TLS configuration", err := e } ∧
    (h.createTLSSecuredEndpoint p).snd = [] := by
  unfold Handler.createTLSSecuredEndpoint
  simp [hcfg]

/-- Witness for C6's amended theorem at a concrete failure. -/
theorem tls_config_error_before_external_calls_witness :
    (tlsConfigFailHandler.createTLSSecuredEndpoint tlsPayload).fst =
      .error { statusCode := 500, message := "Unable to create TLS configuration",
               err := "malformed TLS material" } ∧
    (tlsConfigFailHandler.createTLSSecuredEndpoint tlsPayload).snd = [] :=
  tls_config_error_before_external_calls tlsConfigFailHandler tlsPayload
    "malformed TLS material" (by decide)

/-- C10: an unsecured registration with an empty URL performs no ping, and
the record handed to persistence carries the platform's local engine socket
as URL and the plain Docker type. -/
theorem unsecured_empty_url_defaults (h : Handler)
    (p : EndpointCreatePayload) (hurl : p.URL = "") :
    pingCount (h.createUnsecuredEndpoint p).snd = 0 ∧
    (persistedRecords (h.createUnsecuredEndpoint p).snd).map
        (fun ep => (ep.URL, ep.Type')) =
      [((if h.goos = "windows" then "npipe:////./pipe/docker_engine"
         else "unix:///var/run/docker.sock"), EndpointType.dockerEnvironment)] := by
  unfold Handler.createUnsecuredEndpoint Handler.snapshotAndPersistEndpoint
  cases hsE : h.snapshotErr <;> cases hsV : h.snapshotValue <;>
    cases hC : h.createEndpointErr <;>
    cases hgoos : decide (h.goos = "windows") <;>
    simp_all [pingCount, persistedRecords, hurl]

/-- Witness for C10 on a non-Windows handler. -/
theorem unsecured_empty_url_defaults_witness :
    pingCount (sampleHandler.createUnsecuredEndpoint { Name := "local" }).snd = 0 ∧
    (persistedRecords (sampleHandler.createUnsecuredEndpoint { Name := "local" }).snd).map
        (fun ep => (ep.URL, ep.Type')) =
      [((if sampleHandler.goos = "windows" then "npipe:////./pipe/docker_engine"
         else "unix:///var/run/docker.sock"), EndpointType.dockerEnvironment)] :=
  unsecured_empty_url_defaults sampleHandler { Name := "local" } (by decide)

/-- A handler whose ping probe fails (the target is unreachable). -/
def pingFailHandler : Handler :=
  { sampleHandler with pingResult := .error "unreachable" }

/-- C1 counterexample: an unsecured registration for an unreachable
non-empty URL hard-fails — the result is an infrastructure error and no
record is handed to persistence, contradicting the claimed soft-fail. -/
theorem unsecured_unreachable_hard_fails :
    (pingFailHandler.createUnsecuredEndpoint dockerPayload).fst =
      .error { statusCode := 500, message := "Unable to ping Docker environment",
               err := "unreachable" } ∧
    persistedRecords (pingFailHandler.createUnsecuredEndpoint dockerPayload).snd = [] := by
  decide

/-- C1 amended: when the ping probe is skipped (empty URL) or succeeds but
the snapshot capture fails producing no snapshot, the unsecured registration
still persists a record with status Down and an empty snapshot list. -/
theorem unsecured_snapshot_failure_soft_fails (h : Handler)
    (p : EndpointCreatePayload) (e : String)
    (hreach : p.URL = "" ∨ (∃ b, h.pingResult = .ok b))
    (hsnapE : h.snapshotErr = some e) (hsnapV : h.snapshotValue = none)
    (hpersist : h.createEndpointErr = none) :
    isOkE (h.createUnsecuredEndpoint p).fst = true ∧
    (persistedRecords (h.createUnsecuredEndpoint p).snd).map
        (fun ep => (ep.Status, ep.Snapshots)) =
      [(EndpointStatus.down, [])] := by
  unfold Handler.createUnsecuredEndpoint Handler.snapshotAndPersistEndpoint
  rcases hreach with hurl | ⟨b, hping⟩
  · cases hgoos : decide (h.goos = "windows") <;>
      simp_all [hurl, hsnapE, hsnapV, hpersist, isOkE, persistedRecords]
  · by_cases hurl : p.URL = "" <;>
      cases hgoos : decide (h.goos = "windows") <;>
      cases b <;>
      simp_all [hping, hsnapE, hsnapV, hpersist, isOkE, persistedRecords]

/-- A handler for the C1 witness: reachable target, failing snapshot,
succeeding persistence. -/
def snapshotFailHandler : Handler :=
  { sampleHandler with
      snapshotErr := some "snapshot error"
      snapshotValue := none }

/-- Witness for C1's amended theorem. -/
theorem unsecured_snapshot_failure_soft_fails_witness :
    snapshotFailHandler.pingResult = .ok false ∧
    isOkE (snapshotFailHandler.createUnsecuredEndpoint dockerPayload).fst = true ∧
    (persistedRecords (snapshotFailHandler.createUnsecuredEndpoint dockerPayload).snd).map
        (fun ep => (ep.Status, ep.Snapshots)) =
      [(EndpointStatus.down, [])] :=
  ⟨by decide,
   unsecured_snapshot_failure_soft_fails snapshotFailHandler dockerPayload
     "snapshot error" (Or.inr ⟨false, by decide⟩) (by decide) (by decide) (by decide)⟩

/-- A handler whose TLS artifact store fails on every write. -/
def storeFailHandler : Handler :=
  { sampleHandler with storeTLSFileFromBytes := fun _ _ _ => .error "disk full" }

/-- C2: evaluating the code at the failing input — the TLS file store fails
(the CA store call is in the trace), yet the registration succeeds and the
record is persisted with an empty CA-certificate path, because the source
guards the storeTLSFiles result with the stale, already-nil ping error. -/
theorem tls_store_failure_still_persists :
    isOkE (storeFailHandler.createTLSSecuredEndpoint tlsPayload).fst = true ∧
    Event.storeTLSFile "7" TLSFileType.ca ∈
      (storeFailHandler.createTLSSecuredEndpoint tlsPayload).snd ∧
    (persistedRecords (storeFailHandler.createTLSSecuredEndpoint tlsPayload).snd).map
        (fun ep => ep.TLSConfig.TLSCACertPath) = [""] := by
  decide

/-- Unpadded base64 output length: four characters per three input bytes,
rounded the way the Raw encodings round. -/
theorem encodeGroups_length (alpha : List Char) (bs : List Nat) :
    (encodeGroups alpha bs).length = (bs.length * 4 + 2) / 3 := by
  match bs with
  | [] => simp [encodeGroups]
  | [b0] => simp [encodeGroups]
  | [b0, b1] => simp [encodeGroups]
  | b0 :: b1 :: b2 :: rest =>
    have ih := encodeGroups_length alpha rest
    simp [encodeGroups, ih]
    omega

/-- C3 counterexample: at a digest of thirty-two 255 bytes the stored edge
key is the standard-alphabet encoding, which differs from the URL-safe
encoding of the same digest, so the key is not URL-safe encoded. -/
theorem edge_key_not_urlsafe :
    edgeKeyOf (sampleHandler.createEdgeAgentEndpoint edgePayload).fst =
      some (rawStdEncode (List.replicate 32 255)) ∧
    rawStdEncode (List.replicate 32 255) ≠ rawURLEncode (List.replicate 32 255) := by
  decide

/-- C3 amended: for every successful Edge agent registration, the stored
edgeKey is the digest of the JSON-serialized tunnel-key record encoded with
the standard (non-URL-safe), unpadded base64 alphabet, and when the digest
has the fixed length 32 the key has the fixed length 43. -/
theorem edge_key_std_digest (h : Handler) (p : EndpointCreatePayload)
    (hok : isOkE (h.createEdgeAgentEndpoint p).fst = true)
    (hlen : ∀ bs, (h.hashFromBytes bs).length = 32) :
    edgeKeyOf (h.createEdgeAgentEndpoint p).fst =
      some (rawStdEncode (h.hashFromBytes (marshalEdgeKey
        { TunnelServerAddr := trimPfx p.URL "tcp://",
          TunnelServerPort := "8000",
          TunnelPort := Nat.repr (randomInt 49152 65535 h.randSource),
          TunnelServerFingerprint := h.tunnelServerFingerprint,
          Credentials := "agent@randomstring" }))) ∧
    (rawStdEncode (h.hashFromBytes (marshalEdgeKey
        { TunnelServerAddr := trimPfx p.URL "tcp://",
          TunnelServerPort := "8000",
          TunnelPort := Nat.repr (randomInt 49152 65535 h.randSource),
          TunnelServerFingerprint := h.tunnelServerFingerprint,
          Credentials := "agent@randomstring" }))).length = 43 := by
  constructor
  · unfold Handler.createEdgeAgentEndpoint at hok ⊢
    cases hC : h.createEndpointErr with
    | some e => simp [hC, isOkE] at hok
    | none => simp [hC, edgeKeyOf]
  · show (String.mk _).length = 43
    simp only [String.length, String.mk, rawStdEncode]
    rw [encodeGroups_length, hlen]

/-- Witness for C3's amended theorem at a concrete Edge registration. -/
theorem edge_key_std_digest_witness :
    isOkE (sampleHandler.createEdgeAgentEndpoint edgePayload).fst = true ∧
    edgeKeyOf (sampleHandler.createEdgeAgentEndpoint edgePayload).fst =
      some (rawStdEncode (sampleHandler.hashFromBytes (marshalEdgeKey
        { TunnelServerAddr := trimPfx edgePayload.URL "tcp://",
          TunnelServerPort := "8000",
          TunnelPort := Nat.repr (randomInt 49152 65535 sampleHandler.randSource),
          TunnelServerFingerprint := sampleHandler.tunnelServerFingerprint,
          Credentials := "agent@randomstring" }))) ∧
    (rawStdEncode (sampleHandler.hashFromBytes (marshalEdgeKey
        { TunnelServerAddr := trimPfx edgePayload.URL "tcp://",
          TunnelServerPort := "8000",
          TunnelPort := Nat.repr (randomInt 49152 65535 sampleHandler.randSource),
          TunnelServerFingerprint := sampleHandler.tunnelServerFingerprint,
          Credentials := "agent@randomstring" }))).length = 43 := by
  have h := edge_key_std_digest sampleHandler edgePayload (by decide)
    (fun bs => by simp [sampleHandler])
  exact ⟨by decide, h.1, h.2⟩

/-- A registration request carrying the unrecognized type code 5. -/
def typeFiveRequest : FormRequest :=
  { values := [("Name", "prod1"), ("EndpointType", "5"),
               ("URL", "tcp://10.0.0.5:2375")],
    files := [] }

/-- A registration request whose type code is the rejected 0. -/
def typeZeroRequest : FormRequest :=
  { values := [("Name", "prod1"), ("EndpointType", "0"),
               ("URL", "tcp://10.0.0.5:2375")],
    files := [] }

/-- C4 counterexample: the unrecognized type code 5 passes validation and
the registration proceeds to a persisted record (handled as an unsecured
Docker registration), contrary to the claim that any code outside 1..4 is
rejected. -/
theorem unrecognized_type_code_accepted :
    isOkE (EndpointCreatePayload.Validate failDecoder typeFiveRequest) = true ∧
    isOkE (sampleHandler.endpointCreate failDecoder typeFiveRequest).fst = true ∧
    persistedRecords (sampleHandler.endpointCreate failDecoder typeFiveRequest).snd ≠ [] := by
  decide

/-- C4 amended: the parser rejects a type code that is missing, does not
parse as a number, or parses to zero, with the dedicated validation message;
nonzero unrecognized codes are accepted (see the counterexample). -/
theorem type_code_zero_or_unparseable_rejected (decode : TagsDecoder)
    (r : FormRequest) (hname : r.value "Name" ≠ "")
    (htype : retrieveNumericMultiPartFormValue r "EndpointType" false = .ok 0 ∨
      isOkE (retrieveNumericMultiPartFormValue r "EndpointType" false) = false) :
    EndpointCreatePayload.Validate decode r = .error invalidTypeMsg := by
  unfold EndpointCreatePayload.Validate
  simp only [retrieveMultiPartFormValue, hname]
  rcases htype with h0 | hbad
  · simp [retrieveMultiPartFormValue, hname, h0]
  · cases hE : retrieveNumericMultiPartFormValue r "EndpointType" false with
    | error e => simp [retrieveMultiPartFormValue, hname, hE]
    | ok v => rw [hE] at hbad; simp [isOkE] at hbad

/-- Witness for C4's amended theorem at the zero type code. -/
theorem type_code_zero_or_unparseable_rejected_witness :
    typeZeroRequest.value "Name" ≠ "" ∧
    retrieveNumericMultiPartFormValue typeZeroRequest "EndpointType" false = .ok 0 ∧
    EndpointCreatePayload.Validate failDecoder typeZeroRequest = .error invalidTypeMsg :=
  ⟨by decide, by decide,
   type_code_zero_or_unparseable_rejected failDecoder typeZeroRequest
     (by decide) (Or.inl (by decide))⟩

/-- snapshotAndPersistEndpoint persists exactly the record it returns, and
leaves the record's Tags untouched. -/
theorem snapshotAndPersistEndpoint_record (h : Handler) (ep : Endpoint) :
    persistedRecords (h.snapshotAndPersistEndpoint ep).2.2 =
      [(h.snapshotAndPersistEndpoint ep).2.1] ∧
    ((h.snapshotAndPersistEndpoint ep).2.1).Tags = ep.Tags := by
  unfold Handler.snapshotAndPersistEndpoint
  cases h.snapshotErr <;> cases h.snapshotValue <;> simp [persistedRecords]

/-- storeTLSFiles persists nothing and leaves the record's Tags untouched. -/
theorem storeTLSFiles_record (h : Handler) (ep : Endpoint)
    (p : EndpointCreatePayload) :
    persistedRecords (h.storeTLSFiles ep p).2.2 = [] ∧
    ((h.storeTLSFiles ep p).2.1).Tags = ep.Tags := by
  unfold Handler.storeTLSFiles
  by_cases hsv : p.TLSSkipVerify <;> by_cases hscv : p.TLSSkipClientVerify <;>
    cases hca : h.storeTLSFileFromBytes (Nat.repr ep.ID) TLSFileType.ca p.TLSCACertFile <;>
    cases hcert : h.storeTLSFileFromBytes (Nat.repr ep.ID) TLSFileType.cert p.TLSCertFile <;>
    cases hkey : h.storeTLSFileFromBytes (Nat.repr ep.ID) TLSFileType.key p.TLSKeyFile <;>
    simp_all [persistedRecords]

/-- Every record any creation branch hands to persistence carries the
payload's Tags value. -/
theorem createEndpoint_tags (h : Handler) (p : EndpointCreatePayload) :
    ((persistedRecords (h.createEndpoint p).snd).all
      fun ep => ep.Tags == p.Tags) = true := by
  unfold Handler.createEndpoint
  split
  · unfold Handler.createAzureEndpoint
    cases h.azureAuthErr <;> simp [persistedRecords]
  · split
    · unfold Handler.createEdgeAgentEndpoint
      simp [persistedRecords]
    · split
      · unfold Handler.createTLSSecuredEndpoint
        cases h.createTLSConfigResult with
        | error e => simp [persistedRecords]
        | ok u =>
          cases h.pingResult with
          | error e => simp [persistedRecords]
          | ok b =>
            simp only [persistedRecords, List.filterMap_cons, List.filterMap_append]
            have hstore := storeTLSFiles_record h
              { ID := h.nextIdentifier, Name := p.Name, URL := p.URL,
                Type' := if b then EndpointType.agentOnDockerEnvironment
                         else EndpointType.dockerEnvironment,
                GroupID := p.GroupID, PublicURL := p.PublicURL,
                TLSConfig := { TLS := p.TLS, TLSSkipVerify := p.TLSSkipVerify },
                Tags := p.Tags, Status := EndpointStatus.up, Snapshots := [] } p
            have hsnap := snapshotAndPersistEndpoint_record h
              ((h.storeTLSFiles
                { ID := h.nextIdentifier, Name := p.Name, URL := p.URL,
                  Type' := if b then EndpointType.agentOnDockerEnvironment
                           else EndpointType.dockerEnvironment,
                  GroupID := p.GroupID, PublicURL := p.PublicURL,
                  TLSConfig := { TLS := p.TLS, TLSSkipVerify := p.TLSSkipVerify },
                  Tags := p.Tags, Status := EndpointStatus.up, Snapshots := [] } p).2.1)
            simp only [persistedRecords] at hstore hsnap
            simp [hstore.1, hsnap.1, hsnap.2, hstore.2]
      · unfold Handler.createUnsecuredEndpoint
        by_cases hurl : p.URL = ""
        · simp only [hurl, if_pos rfl]
          simp only [persistedRecords, List.filterMap_append]
          have hsnap := snapshotAndPersistEndpoint_record h
            { ID := h.nextIdentifier, Name := p.Name,
              URL := if h.goos = "windows" then "npipe:////./pipe/docker_engine"
                     else "unix:///var/run/docker.sock",
              Type' := EndpointType.dockerEnvironment,
              GroupID := p.GroupID, PublicURL := p.PublicURL,
              TLSConfig := { TLS := false },
              Tags := p.Tags, Status := EndpointStatus.up, Snapshots := [] }
          simp only [persistedRecords] at hsnap
          simp [hsnap.1, hsnap.2]
        · simp only [hurl, if_neg hurl]
          cases h.pingResult with
          | error e => simp [persistedRecords]
          | ok b =>
            simp only [persistedRecords, List.filterMap_append]
            have hsnap := snapshotAndPersistEndpoint_record h
              { ID := h.nextIdentifier, Name := p.Name, URL := p.URL,
                Type' := if b then EndpointType.agentOnDockerEnvironment
                         else EndpointType.dockerEnvironment,
                GroupID := p.GroupID, PublicURL := p.PublicURL,
                TLSConfig := { TLS := false },
                Tags := p.Tags, Status := EndpointStatus.up, Snapshots := [] }
            simp only [persistedRecords] at hsnap
            simp [hsnap.1, hsnap.2]

/-- A payload produced by Validate always carries a non-nil Tags sequence,
and an absent Tags field yields the empty sequence. -/
theorem Validate_ok_tags (decode : TagsDecoder) (r : FormRequest)
    (p : EndpointCreatePayload)
    (hok : EndpointCreatePayload.Validate decode r = .ok p) :
    p.Tags.isSome = true ∧ (r.value "Tags" = "" → p.Tags = some []) := by
  unfold EndpointCreatePayload.Validate at hok
  cases h1 : retrieveMultiPartFormValue r "Name" false with
  | error e1 => simp [h1] at hok
  | ok name =>
  simp only [h1] at hok
  cases h2 : retrieveNumericMultiPartFormValue r "EndpointType" false with
  | error e2 => simp [h2] at hok
  | ok v =>
  simp only [h2] at hok
  by_cases h3 : v = 0
  · rw [if_pos h3] at hok
    simp at hok
  · rw [if_neg h3] at hok
    cases h4 : retrieveMultiPartFormJSONValue decode r "Tags" true with
    | error e4 => simp [h4] at hok
    | ok tagsRaw =>
    simp only [h4] at hok
    repeat' split at hok
    all_goals first
      | exact Except.noConfusion hok
      | (injection hok with hlit; subst hlit; exact ⟨rfl, fun _ => rfl⟩)
      | (injection hok with hlit; subst hlit;
         refine ⟨rfl, fun hval => ?_⟩;
         simp [retrieveMultiPartFormJSONValue,
           retrieveMultiPartFormValue, hval] at h4)

/-- A present but undecodable Tags value makes Validate fail. -/
theorem Validate_malformed_tags (decode : TagsDecoder) (r : FormRequest)
    (hval : r.value "Tags" ≠ "")
    (hbad : isOkE (decode (r.value "Tags")) = false) :
    isOkE (EndpointCreatePayload.Validate decode r) = false := by
  unfold EndpointCreatePayload.Validate
  cases h1 : retrieveMultiPartFormValue r "Name" false with
  | error e1 => simp [h1, isOkE]
  | ok name =>
  cases h2 : retrieveNumericMultiPartFormValue r "EndpointType" false with
  | error e2 => simp [h1, h2, isOkE]
  | ok v =>
  by_cases h3 : v = 0
  · simp [h1, h2, h3, isOkE]
  · cases hd : decode (r.value "Tags") with
    | error e =>
      simp [h1, h2, h3, retrieveMultiPartFormJSONValue,
            retrieveMultiPartFormValue, hval, hd, isOkE]
    | ok t => rw [hd] at hbad; simp [isOkE] at hbad

/-- C8: Validate always yields a non-nil (possibly empty) Tags sequence —
absent input normalizes to the empty sequence, a present undecodable value
is a validation error — and every record a creation branch hands to
persistence carries exactly that sequence. -/
theorem tags_always_sequence (decode : TagsDecoder) (r : FormRequest)
    (h : Handler) (p : EndpointCreatePayload) :
    (EndpointCreatePayload.Validate decode r = .ok p →
      p.Tags.isSome = true ∧
      (r.value "Tags" = "" → p.Tags = some []) ∧
      ((persistedRecords (h.createEndpoint p).snd).all
        fun ep => ep.Tags == p.Tags) = true) ∧
    (r.value "Tags" ≠ "" → isOkE (decode (r.value "Tags")) = false →
      isOkE (EndpointCreatePayload.Validate decode r) = false) := by
  constructor
  · intro hok
    have hv := Validate_ok_tags decode r p hok
    exact ⟨hv.1, hv.2, createEndpoint_tags h p⟩
  · exact Validate_malformed_tags decode r

/-- A request without a Tags field. -/
def noTagsRequest : FormRequest :=
  { values := [("Name", "prod1"), ("EndpointType", "1"),
               ("URL", "tcp://10.0.0.5:2375")],
    files := [] }

/-- A request with a malformed Tags field. -/
def badTagsRequest : FormRequest :=
  { values := [("Name", "prod1"), ("EndpointType", "1"),
               ("URL", "tcp://10.0.0.5:2375"), ("Tags", "not-json")],
    files := [] }

/-- Witness for C8: the Tags-absent request validates to the empty sequence
which is what gets persisted, and the malformed-Tags request is rejected. -/
theorem tags_always_sequence_witness :
    (EndpointCreatePayload.Validate failDecoder noTagsRequest =
      .ok dockerPayload) ∧
    (dockerPayload.Tags.isSome = true ∧
      (noTagsRequest.value "Tags" = "" → dockerPayload.Tags = some []) ∧
      ((persistedRecords (sampleHandler.createEndpoint dockerPayload).snd).all
        fun ep => ep.Tags == dockerPayload.Tags) = true) ∧
    isOkE (EndpointCreatePayload.Validate failDecoder badTagsRequest) = false := by
  refine ⟨by decide, ?_, ?_⟩
  · exact (tags_always_sequence failDecoder noTagsRequest sampleHandler
      dockerPayload).1 (by decide)
  · exact (tags_always_sequence failDecoder badTagsRequest sampleHandler
      dockerPayload).2 (by decide) (by decide)

end Portainer